import Mathlib

/-!
Verification of the auto-downloader orchestrator against its specification.

The Python sources (main.py, notion_api.py, skyvern_api_downloader.py,
llm_pre_filter.py) are shallowly embedded: pure string manipulation is
translated directly, HTTP calls and the file system become explicit
environment parameters, and the record-store side effects become traces of
events.  Several routines in main.py return either a bare bool or a
(bool, reason) tuple; in a Python boolean context a tuple is always truthy,
so the embedding keeps both shapes in one type with an explicit truthiness
function.
-/

namespace AutoDownloader

/-- Python return values of the downloader routines in main.py: some return
statements yield a bare bool, others a (bool, reason) tuple. -/
inductive PyRet where
  | bool (b : Bool)
  | pair (ok : Bool) (reason : Option String)
deriving DecidableEq

/-- Python truthiness of such a value: a tuple is always truthy, whatever its
first component is. -/
def PyRet.truthy : PyRet → Bool
  | .bool b => b
  | .pair _ _ => true

/-- Python truthiness of an optional string (None and the empty string are
falsy). -/
def py_truthy_str : Option String → Bool
  | none => false
  | some s => !s.toList.isEmpty

/-- Substring membership, the Python expression sub in s. -/
def contains_sub (s sub : String) : Bool :=
  s.toList.tails.any (fun t => sub.toList.isPrefixOf t)

/-- First element of a list of strings, the Python indexing xs[0] after a
guarded split (empty fallback never reached on the guarded paths). -/
def str_at (xs : List String) (i : Nat) : String := xs.getD i ""

/-- Worker for py_split: scan character by character, cutting whenever the
(non-empty) separator is a prefix of the remaining text.  The fuel starts at
the text length; each step shortens the text, so the fuel never runs out. -/
def py_split_go (sep : List Char) : Nat → List Char → List Char → List (List Char)
  | _, [], acc => [acc.reverse]
  | 0, l, acc => [acc.reverse ++ l]
  | fuel + 1, c :: rest, acc =>
    if sep.isPrefixOf (c :: rest) then
      acc.reverse :: py_split_go sep fuel ((c :: rest).drop sep.length) []
    else py_split_go sep fuel rest (c :: acc)

/-- Python str.split with a non-empty separator. -/
def py_split (s sep : String) : List String :=
  (py_split_go sep.toList s.toList.length s.toList []).map (fun l => String.mk l)

/-- Python separator.join over a list of pieces. -/
def py_join (sep : String) : List String → String
  | [] => ""
  | [x] => x
  | x :: y :: xs => x ++ sep ++ py_join sep (y :: xs)

/-- The whitespace characters Python str.strip removes. -/
def is_py_space (c : Char) : Bool :=
  c = ' ' || c = '\t' || c = '\n' || c = '\r' || c = '\x0b' || c = '\x0c'

/-- Python str.strip. -/
def py_strip (s : String) : String :=
  String.mk (((s.toList.dropWhile is_py_space).reverse.dropWhile is_py_space).reverse)

/-- Python str.lower (over the ASCII range the sources use). -/
def py_lower (s : String) : String := String.mk (s.toList.map Char.toLower)

/-- Python str.startswith. -/
def py_startswith (s p : String) : Bool := p.toList.isPrefixOf s.toList

/-- Python str.endswith. -/
def py_endswith (s p : String) : Bool := p.toList.reverse.isPrefixOf s.toList.reverse

/-- The backends process_case can dispatch to. -/
inductive Backend where
  | gdrive
  | skyvern
deriving DecidableEq

/-- Record-store and backend side effects observed during one orchestration,
in the order the code performs them. -/
inductive Event where
  | updStatus (page_id : String) (status : String)
  | updWorkflowRunId (page_id : String) (wf_run_id : Option String)
  | cancelWorkflow (wf_run_id : String)
  | backendCall (b : Backend)
deriving DecidableEq

/-! ## Record store adapter (notion_api.py) -/

/-- One page of a paginated databases.query response. -/
structure QueryPage where
  results : List String
  has_more : Bool
  next_cursor : Option Nat
deriving DecidableEq

/-- A record-store query: given a start cursor it either raises or returns a
page. -/
abbrev StoreQuery := Option Nat → Except Unit QueryPage

/-- The while-True pagination loop inside count_cases_with_status, fuel
indexed; the Python loop has no iteration bound of its own. -/
def count_cases_loop (q : StoreQuery) : Option Nat → Nat → Nat → Option (Except Unit Nat)
  | _, _, 0 => none
  | cursor, total, fuel + 1 =>
    match q cursor with
    | .error e => some (.error e)
    | .ok page =>
      let total := total + page.results.length
      if page.has_more then count_cases_loop q page.next_cursor total fuel
      else some (.ok total)

/-- count_cases_with_status from notion_api.py: pages through the query,
summing the result batches; the surrounding try/except turns any exception
into a count of 0. -/
def count_cases_with_status (q : StoreQuery) (fuel : Nat) : Option Nat :=
  match count_cases_loop q none 0 fuel with
  | some (.ok n) => some n
  | some (.error _) => some 0
  | none => none

/-- A well-formed paginated store: batch k answers the k-th query, has_more
is set exactly while more batches remain, and next_cursor points at the next
batch.  A missing cursor (the first query) reads batch 0. -/
def chain_query (batches : List (List String)) : StoreQuery := fun cursor =>
  match batches.drop (cursor.getD 0) with
  | [] => .error ()
  | b :: rest => .ok ⟨b, !rest.isEmpty, some (cursor.getD 0 + 1)⟩

/-- A store whose every query raises. -/
def raising_query : StoreQuery := fun _ => .error ()

/-! ## Workflow liveness check and the stale-state sweep (main.py) -/

/-- Outcome of the GET workflow_runs/id call inside is_workflow_active. -/
inductive WfCheck where
  | http (code : Nat) (status : String)
  | raises
deriving DecidableEq

/-- is_workflow_active from main.py.  The function mixes its return types:
the 200 branch and the exception branch return a bare bool, while the missing
id, 404 and other-HTTP branches return (False, message) tuples (with messages
copied from the Google Drive routine).  In the boolean contexts where callers
use it, those tuples are truthy. -/
def is_workflow_active (workflow_run_id : Option String) (check : String → WfCheck) : PyRet :=
  if py_truthy_str workflow_run_id = false then .pair false none
  else
    match check (workflow_run_id.getD "") with
    | .http 200 status => .bool (decide (status ∈ ["running", "queued", "created"]))
    | .http 404 _ => .pair false (some "No files downloaded from Google Drive")
    | .http _ _ => .pair false (some "Could not extract Google Drive folder/file ID")
    | .raises => .bool false

/-- A case row as _extract_case_data returns it; extract_ok models the rows
the extractor rejects (returns None for). -/
structure CaseRow where
  page_id : String
  suspect_name : String
  workflow_run_id : Option String
  extract_ok : Bool
deriving DecidableEq

/-- The per-case body of clear_stale_downloading_statuses: skip rows the
extractor rejects, skip rows whose workflow the liveness check reports truthy,
otherwise reset the status to Ready For Download and clear the stored run id
when one was present. -/
def clear_stale_loop (check : String → WfCheck) : List CaseRow → Nat × List Event
  | [] => (0, [])
  | c :: rest =>
    if c.extract_ok = false then clear_stale_loop check rest
    else if py_truthy_str c.workflow_run_id && (is_workflow_active c.workflow_run_id check).truthy then
      clear_stale_loop check rest
    else
      let here := [Event.updStatus c.page_id "Ready For Download"] ++
        (if py_truthy_str c.workflow_run_id then [Event.updWorkflowRunId c.page_id none] else [])
      let (n, tr) := clear_stale_loop check rest
      (n + 1, here ++ tr)

/-- clear_stale_downloading_statuses from main.py: query the Downloading
cases (an exception yields 0 cleared and no writes) and run the per-case
body. -/
def clear_stale_downloading_statuses (query : Except Unit (List CaseRow))
    (check : String → WfCheck) : Nat × List Event :=
  match query with
  | .error _ => (0, [])
  | .ok cases => clear_stale_loop check cases

/-- count_active_downloads from main.py: query the Downloading cases and
count those whose stored run id is truthy and whose liveness check is truthy;
any exception yields 0. -/
def count_active_downloads (query : Except Unit (List CaseRow))
    (check : String → WfCheck) : Nat :=
  match query with
  | .error _ => 0
  | .ok cases =>
    (cases.filter (fun c =>
      c.extract_ok && py_truthy_str c.workflow_run_id &&
        (is_workflow_active c.workflow_run_id check).truthy)).length

/-- The gate in the main loop: new work is fetched and launched only when the
active-download count is zero. -/
def scheduler_launches_new_work (active : Nat) : Bool := decide (active = 0)

/-! ## The poll loop of download_with_skyvern_workflow (main.py) -/

/-- Default SKYVERN_TIMEOUT from main.py: four hours in seconds. -/
def SKYVERN_TIMEOUT : Nat := 4 * 3600

/-- Default SKYVERN_POLL_INTERVAL from main.py, in seconds. -/
def SKYVERN_POLL_INTERVAL : Nat := 30

/-- Maximum consecutive API timeouts before the poll loop gives up. -/
def skyvern_max_retries : Nat := 5

/-- Workflow statuses the poll loop breaks on. -/
def terminal_workflow_statuses : List String :=
  ["completed", "failed", "terminated", "canceled"]

/-- Outcome of one GET workflow_runs/id poll inside the loop: a parsed 200
response with a status field, a requests Timeout, or any other exception. -/
inductive PollResp where
  | ok (status : String)
  | timeout
  | err
deriving DecidableEq

/-- How the poll loop ended: the absolute ceiling fired (after issuing a
cancel and returning a bare False), the consecutive-timeout bound fired
(returning a (False, reason) tuple with no cancel), or a terminal workflow
status was observed. -/
inductive LoopExit where
  | timedOut
  | gaveUp (reason : String)
  | terminal (status : String)
deriving DecidableEq

/-- Result of the poll loop: how it exited, how many cancel calls it issued,
and one (response, sleep seconds) entry per continuing iteration. -/
structure LoopOut where
  exit : LoopExit
  cancels : Nat
  steps : List (PollResp × Nat)
deriving DecidableEq

/-- The while-True poll loop of download_with_skyvern_workflow, fuel indexed.
Elapsed wall time is modeled as the sum of the sleeps performed so far; each
continuing iteration sleeps at least one poll interval.  The ceiling check
uses the strict comparison of the code, consecutive timeouts back off by
poll interval times the retry count, other exceptions sleep one fixed
interval without touching the retry counter, and a successful response resets
the counter before the terminal-status test. -/
def poll_loop (polls : Nat → PollResp) : Nat → Nat → Nat → Nat → Option LoopOut
  | _, _, _, 0 => none
  | elapsed, retry, i, fuel + 1 =>
    if SKYVERN_TIMEOUT < elapsed then some ⟨.timedOut, 1, []⟩
    else
      match polls i with
      | .timeout =>
        let r := retry + 1
        if skyvern_max_retries ≤ r then
          some ⟨.gaveUp ("Failed to check workflow status after " ++
            toString skyvern_max_retries ++ " timeout attempts"), 0, []⟩
        else
          let sleep := SKYVERN_POLL_INTERVAL * r
          (poll_loop polls (elapsed + sleep) r (i + 1) fuel).map
            (fun out => ⟨out.exit, out.cancels, (PollResp.timeout, sleep) :: out.steps⟩)
      | .err =>
        (poll_loop polls (elapsed + SKYVERN_POLL_INTERVAL) retry (i + 1) fuel).map
          (fun out => ⟨out.exit, out.cancels, (PollResp.err, SKYVERN_POLL_INTERVAL) :: out.steps⟩)
      | .ok s =>
        if s ∈ terminal_workflow_statuses then some ⟨.terminal s, 0, []⟩
        else
          (poll_loop polls (elapsed + SKYVERN_POLL_INTERVAL) 0 (i + 1) fuel).map
            (fun out => ⟨out.exit, out.cancels, (PollResp.ok s, SKYVERN_POLL_INTERVAL) :: out.steps⟩)

/-- A backend whose every poll reports a still-running workflow. -/
def all_running : Nat → PollResp := fun _ => .ok "running"

/-- A backend whose every poll raises a requests Timeout. -/
def all_timeout : Nat → PollResp := fun _ => .timeout

/-- A backend whose every poll raises a non-timeout exception. -/
def all_err : Nat → PollResp := fun _ => .err

/-- A Downloading case whose backend job the backend reports as running. -/
def running_case : CaseRow := ⟨"p1", "Alice", some "wr_run", true⟩

/-- A Downloading case whose backend job the backend reports as not found. -/
def not_found_case : CaseRow := ⟨"p2", "Bob", some "wr_gone", true⟩

/-- Backend answers for the two sweep test cases: HTTP 200 running for one,
HTTP 404 for the other. -/
def sweep_check : String → WfCheck := fun wr =>
  if wr = "wr_run" then .http 200 "running" else .http 404 ""

/-! ## Credential parsing and URL dispatch (main.py) -/

/-- Python split(sep, 1) keeping only the text after the first separator. -/
def split_once_tail (s sep : String) : String :=
  match py_split s sep with
  | [] => ""
  | _ :: rest => py_join sep rest

/-- One line of the parse_credentials loop, updating the (username, password)
pair the way the if/elif chain does; Python negation of a string treats the
empty string as unset. -/
def parse_credentials_step (acc : Option String × Option String) (line : String) :
    Option String × Option String :=
  let ll := py_lower line
  if contains_sub ll "email:" || contains_sub ll "username:" then
    (some (py_strip (split_once_tail line ":")), acc.2)
  else if contains_sub ll "password:" then
    (acc.1, some (py_strip (split_once_tail line ":")))
  else if contains_sub line "@" && py_truthy_str acc.1 = false then
    (some line, acc.2)
  else if py_truthy_str acc.2 = false && !contains_sub ll "email" && !contains_sub ll "username" then
    (acc.1, some line)
  else acc

/-- parse_credentials from main.py: strip and drop blank lines, then fold the
per-line chain over them. -/
def parse_credentials (login_text : String) : Option String × Option String :=
  let lines := ((py_split login_text "\n").map py_strip).filter (fun l => !l.toList.isEmpty)
  lines.foldl parse_credentials_step (none, none)

/-- is_google_drive_url from main.py. -/
def is_google_drive_url (url : String) : Bool :=
  contains_sub url "drive.google.com" || contains_sub url "docs.google.com"

/-- urlparse(url).query followed by parse_qs and taking the first id value:
the text between the first question mark and any fragment, split into
ampersand-separated pairs; parse_qs drops pairs with a blank value. -/
def parse_qs_first_id (url : String) : Option String :=
  match py_split url "?" with
  | [] => none
  | [_] => none
  | _ :: rest =>
    let q := str_at (py_split (py_join "?" rest) "#") 0
    ((py_split q "&").filterMap (fun p =>
      match py_split p "=" with
      | "id" :: v :: more =>
        let value := py_join "=" (v :: more)
        if value.toList.isEmpty then none else some value
      | _ => none)).head?

/-- The folder/file id extraction at the top of download_google_drive: the
if/elif chain over the URL shape fills at most one of the two ids. -/
def gdrive_ids (url : String) : Option String × Option String :=
  if contains_sub url "/folders/" then
    (some (str_at (py_split (str_at (py_split url "/folders/") 1) "?") 0), none)
  else if contains_sub url "/file/d/" then
    (none, some (str_at (py_split (str_at (py_split url "/file/d/") 1) "/") 0))
  else if contains_sub url "id=" then
    (parse_qs_first_id url, none)
  else (none, none)

/-! ## download_google_drive (main.py) -/

/-- Environment for download_google_drive: what gdown fetches and how the
inline Dropbox uploads go (upload_to_dropbox_inline catches its own
exceptions and returns None on failure, modeled as a per-file flag). -/
structure GDriveEnv where
  gdown_raises : Bool
  folder_files : List (String × Bool)
  file_downloaded : Bool
  file_upload_ok : Bool
deriving DecidableEq

/-- download_google_drive from main.py.  The status is set to Downloading
before the URL is parsed; the folder branch reports upload failure (and the
empty-folder outcome) as a (False, reason) tuple while the file branch and
the fallthrough paths return a bare False; the surrounding try/except turns
a gdown exception into a bare False as well. -/
def download_google_drive (env : GDriveEnv) (url suspect_name page_id : String) :
    PyRet × List Event :=
  let ev0 : List Event := [.updStatus page_id "Downloading"]
  let (folder_id, file_id) := gdrive_ids url
  if py_truthy_str folder_id then
    if env.gdown_raises then (.bool false, ev0)
    else
      let downloaded := env.folder_files
      if downloaded.isEmpty then (.pair false (some "Failed to upload to Dropbox"), ev0)
      else
        let success_count := (downloaded.filter (fun f => f.2)).length
        if 0 < success_count then
          (.pair true none, ev0 ++ [.updStatus page_id "Downloaded"])
        else (.pair false (some "Failed to upload to Dropbox"), ev0)
  else if py_truthy_str file_id then
    if env.gdown_raises then (.bool false, ev0)
    else if env.file_downloaded then
      if env.file_upload_ok then (.pair true none, ev0 ++ [.updStatus page_id "Downloaded"])
      else (.bool false, ev0)
    else (.bool false, ev0)
  else (.bool false, ev0)

/-! ## download_with_skyvern_workflow (main.py) -/

/-- One file found in the workflow download directory, with the outcomes of
its copy into the suspect folder and its inline Dropbox upload. -/
structure FileSpec where
  name : String
  copy_ok : Bool
  upload_ok : Bool
deriving DecidableEq

/-- Environment for download_with_skyvern_workflow: the workflow-start HTTP
call (raises, non-200, or 200 with an optional workflow_run_id in the body),
the poll responses, and the post-completion collection outcomes. -/
structure WorkflowEnv where
  start_raises : Bool
  start_http : Option (Option String)
  polls : Nat → PollResp
  dir_exists : Bool
  files : List FileSpec
  failure_message : Option String
  post_raises : Bool

/-- download_with_skyvern_workflow from main.py.  Once a workflow run id is
obtained it is written to the store and the status set to Downloading; the
finally block appends one further update_workflow_run_id None on every exit
path after that point (the success path also clears it explicitly first).
The timed-out exit issues the cancel call; the gave-up and workflow-failed
exits return (False, reason) tuples; completed runs collect files and report
a (True, None) tuple when at least one file uploaded, a bare False
otherwise.  The result is None only when the loop fuel runs out. -/
def download_with_skyvern_workflow (env : WorkflowEnv) (page_id : String) (fuel : Nat) :
    Option (PyRet × List Event) :=
  if env.start_raises then some (.bool false, [])
  else
    match env.start_http with
    | none => some (.bool false, [])
    | some none => some (.bool false, [])
    | some (some wr) =>
      let pre : List Event := [.updWorkflowRunId page_id (some wr), .updStatus page_id "Downloading"]
      let fin : List Event := [.updWorkflowRunId page_id none]
      match poll_loop env.polls 0 0 0 fuel with
      | none => none
      | some out =>
        match out.exit with
        | .timedOut => some (.bool false, pre ++ [.cancelWorkflow wr] ++ fin)
        | .gaveUp reason => some (.pair false (some reason), pre ++ fin)
        | .terminal status =>
          if status = "completed" then
            if env.post_raises then some (.bool false, pre ++ fin)
            else if env.dir_exists then
              if env.files.isEmpty then some (.bool false, pre ++ fin)
              else
                let success_count := (env.files.filter (fun f => f.copy_ok && f.upload_ok)).length
                if 0 < success_count then
                  some (.pair true none,
                    pre ++ [.updStatus page_id "Downloaded", .updWorkflowRunId page_id none] ++ fin)
                else some (.bool false, pre ++ fin)
            else some (.bool false, pre ++ fin)
          else
            let reason := match env.failure_message with
              | some m => "Workflow " ++ status ++ ": " ++ m
              | none => "Workflow " ++ status
            some (.pair false (some reason), pre ++ fin)

/-! ## process_case (main.py) -/

/-- One case as handed to process_case by the main loop. -/
structure CaseInput where
  suspect_name : String
  download_links : List String
  login_credentials : String
  page_id : String

/-- Combined environment for one process_case run. -/
structure ProcessEnv where
  gdrive : GDriveEnv
  wf : WorkflowEnv

/-- The tail of process_case: a truthy routine result leaves the record
store untouched, a falsy one marks the case Failed. -/
def mark_case_outcome (page_id : String) (ret : PyRet) (tr : List Event) : List Event :=
  if ret.truthy then tr else tr ++ [Event.updStatus page_id "Failed"]

/-- process_case from main.py: pick the first download link, parse the
credentials, dispatch on the URL type to exactly one download routine, and
mark the case Failed only when the returned value is falsy.  The result
carries the routine return value (the local success variable) and the event
trace. -/
def process_case (env : ProcessEnv) (c : CaseInput) (fuel : Nat) :
    Option (PyRet × List Event) :=
  let link := str_at c.download_links 0
  let _creds := parse_credentials c.login_credentials
  if is_google_drive_url link then
    let (ret, tr) := download_google_drive env.gdrive link c.suspect_name c.page_id
    some (ret, mark_case_outcome c.page_id ret ([Event.backendCall .gdrive] ++ tr))
  else
    match download_with_skyvern_workflow env.wf c.page_id fuel with
    | none => none
    | some (ret, tr) =>
      some (ret, mark_case_outcome c.page_id ret ([Event.backendCall .skyvern] ++ tr))

/-! ## Artifact collection and dedup (skyvern_api_downloader.py)

File bytes are abstracted to a natural number and the SHA256 checksum is
modeled as that number itself (distinct contents hash differently, equal
contents collide); the destination directory is a name-keyed association
list; hashing and copying never hit IO errors in the model. -/

/-- Abstracted file contents. -/
abbrev Content := Nat

/-- The case destination directory: file name to contents, in creation
order. -/
abbrev Dir := List (String × Content)

/-- Contents of a named file in a directory. -/
def dir_get (d : Dir) (name : String) : Option Content :=
  (d.find? (fun e => e.1 == name)).map (fun e => e.2)

/-- Path unlink: drop a named file. -/
def dir_erase (d : Dir) (name : String) : Dir :=
  d.filter (fun e => e.1 != name)

/-- shutil copy into the directory: overwrite the named file or append it. -/
def dir_set (d : Dir) (name : String) (c : Content) : Dir :=
  if (d.find? (fun e => e.1 == name)).isSome then
    d.map (fun e => if e.1 == name then (name, c) else e)
  else d ++ [(name, c)]

/-- The checksum index: content hash to destination file name. -/
abbrev ChecksumIndex := List (Content × String)

/-- Membership test of the dict, the Python expression checksum in index. -/
def idx_has (idx : ChecksumIndex) (c : Content) : Bool :=
  idx.any (fun e => e.1 == c)

/-- Dict assignment index[c] = name, overwriting an existing key. -/
def idx_put (idx : ChecksumIndex) (c : Content) (name : String) : ChecksumIndex :=
  if idx_has idx c then idx.map (fun e => if e.1 == c then (c, name) else e)
  else idx ++ [(c, name)]

/-- The SHA256 file hash, modeled as the abstract contents themselves. -/
def hash_file (c : Content) : Content := c

/-- The fixed Skyvern artifact naming policy of _skyvern_artifact_reason:
the reason string when the (lowercased) file name matches a known
backend-internal artifact pattern. -/
def skyvern_artifact_reason (filename : String) : Option String :=
  let name := py_lower filename
  if py_startswith name "ai_nav_step_" && py_endswith name ".png" then
    some "Skyvern navigation screenshot"
  else if py_startswith name "recording_" && (py_endswith name ".webm" || py_endswith name ".mp4") then
    some "Skyvern session recording"
  else if py_endswith name "browser_console.log" then some "Browser console log"
  else if py_endswith name "browser_network.log" then some "Browser network log"
  else if py_endswith name "trace.zip" && contains_sub name "playwright" then
    some "Playwright trace archive"
  else none

/-- is_evidence_file from skyvern_api_downloader.py. -/
def is_evidence_file (filename : String) : Bool :=
  (skyvern_artifact_reason filename).isNone

/-- The loop body of _build_checksum_index over the snapshot of evidence
files: a file whose hash is already indexed is unlinked as a pre-existing
duplicate, otherwise its hash is recorded. -/
def build_index_loop : List (String × Content) → ChecksumIndex → Dir → ChecksumIndex × Dir
  | [], idx, d => (idx, d)
  | (n, c) :: rest, idx, d =>
    let h := hash_file c
    if idx_has idx h then build_index_loop rest idx (dir_erase d n)
    else build_index_loop rest (idx_put idx h n) d

/-- _build_checksum_index: index the evidence files already present and drop
duplicate contents among them. -/
def build_checksum_index (d : Dir) : ChecksumIndex × Dir :=
  build_index_loop (d.filter (fun e => is_evidence_file e.1)) [] d

/-- One record of the task status downloaded_files list. -/
structure ReportedDownload where
  checksum : Option Content
  filename : Option String
  path : Option String
deriving DecidableEq

/-- The file system the reported-download paths live in, together with the
absolute destination root used by the resolve comparison. -/
structure SourceFS where
  files : List (String × Content)
  dest_root : String

/-- Contents at an absolute source path. -/
def src_get (fs : SourceFS) (p : String) : Option Content :=
  (fs.files.find? (fun e => e.1 == p)).map (fun e => e.2)

/-- Path(p).name, the final path component. -/
def path_basename (p : String) : String := (py_split p "/").getLastD ""

/-- One record of the _copy_reported_downloads loop: skip on an indexed
reported checksum, a missing path, or a missing source file; otherwise copy
the source over the destination name (unless source and destination resolve
to the same path), take the reported checksum or hash the destination after
the copy, and either unlink the destination as a duplicate or record it. -/
def copy_reported_one (fs : SourceFS) (r : ReportedDownload) (idx : ChecksumIndex) (d : Dir) :
    Nat × ChecksumIndex × Dir :=
  if (r.checksum.map (idx_has idx)).getD false then (0, idx, d)
  else
    match r.path with
    | none => (0, idx, d)
    | some sp =>
      match src_get fs sp with
      | none => (0, idx, d)
      | some content =>
        let target := match r.filename with
          | some f => if f.toList.isEmpty then path_basename sp else f
          | none => path_basename sp
        let same := sp == fs.dest_root ++ "/" ++ target
        let d1 := if same then d else dir_set d target content
        let c := match r.checksum with
          | some c0 => c0
          | none => hash_file ((dir_get d1 target).getD content)
        if idx_has idx c then (0, idx, dir_erase d1 target)
        else (1, idx_put idx c target, d1)

/-- _copy_reported_downloads: fold the per-record step over the reported
list, counting the files it saved. -/
def copy_reported_downloads (fs : SourceFS) (records : List ReportedDownload)
    (idx : ChecksumIndex) (d : Dir) : Nat × ChecksumIndex × Dir :=
  records.foldl (fun acc r =>
    let (dsaved, idx2, d2) := copy_reported_one fs r acc.2.1 acc.2.2
    (acc.1 + dsaved, idx2, d2)) (0, idx, d)

/-- One artifact of the task artifact listing. -/
structure TaskArtifact where
  artifact_id : String
  artifact_type : String
  checksum : Option Content
  uri : Option String
deriving DecidableEq

/-- One artifact of the _download_artifact_files loop: only download-typed
artifacts are fetched; the response body is written over the destination
name, non-evidence names are unlinked again, and the checksum (reported or
hashed after the write) decides between unlink-as-duplicate and record. -/
def download_artifact_one (fetch : String → Option Content) (a : TaskArtifact)
    (idx : ChecksumIndex) (d : Dir) : Nat × ChecksumIndex × Dir :=
  if a.artifact_type != "download" then (0, idx, d)
  else
    let filename := match a.uri with
      | some u => if u.toList.isEmpty then "download_" ++ a.artifact_id else u
      | none => "download_" ++ a.artifact_id
    if (a.checksum.map (idx_has idx)).getD false then (0, idx, d)
    else
      match fetch a.artifact_id with
      | none => (0, idx, d)
      | some content =>
        let destName := path_basename filename
        let d1 := dir_set d destName content
        if is_evidence_file destName = false then (0, idx, dir_erase d1 destName)
        else
          let c := match a.checksum with
            | some c0 => c0
            | none => hash_file content
          if idx_has idx c then (0, idx, dir_erase d1 destName)
          else (1, idx_put idx c destName, d1)

/-- _download_artifact_files over the artifact list. -/
def download_artifact_files (fetch : String → Option Content) (arts : List TaskArtifact)
    (idx : ChecksumIndex) (d : Dir) : Nat × ChecksumIndex × Dir :=
  arts.foldl (fun acc a =>
    let (dsaved, idx2, d2) := download_artifact_one fetch a acc.2.1 acc.2.2
    (acc.1 + dsaved, idx2, d2)) (0, idx, d)

/-- One file of the _copy_from_task_mount loop: non-evidence names are
skipped, the source file is hashed before copying and skipped when already
indexed, then copied over the destination name (unless the paths resolve
equal); because the checksum is already set, the post-copy duplicate test
repeats the same lookup. -/
def copy_mount_one (dest_root mount_path : String) (f : String × Content)
    (idx : ChecksumIndex) (d : Dir) : Nat × ChecksumIndex × Dir :=
  if is_evidence_file f.1 = false then (0, idx, d)
  else
    let c0 := hash_file f.2
    if idx_has idx c0 then (0, idx, d)
    else
      let same := mount_path ++ "/" ++ f.1 == dest_root ++ "/" ++ f.1
      let d1 := if same then d else dir_set d f.1 f.2
      if idx_has idx c0 then (0, idx, dir_erase d1 f.1)
      else (1, idx_put idx c0 f.1, d1)

/-- _copy_from_task_mount: nothing happens when the mounted task directory
does not exist; otherwise fold over its files. -/
def copy_from_task_mount (dest_root mount_path : String)
    (mount : Option (List (String × Content))) (idx : ChecksumIndex) (d : Dir) :
    Nat × ChecksumIndex × Dir :=
  match mount with
  | none => (0, idx, d)
  | some files =>
    files.foldl (fun acc f =>
      let (dsaved, idx2, d2) := copy_mount_one dest_root mount_path f acc.2.1 acc.2.2
      (acc.1 + dsaved, idx2, d2)) (0, idx, d)

/-- Environment for one _collect_downloads run: the source file system for
reported paths, the artifact listing and its fetcher, and the mounted task
directory. -/
structure CollectEnv where
  fs : SourceFS
  artifacts : List TaskArtifact
  fetch : String → Option Content
  mount : Option (List (String × Content))
  mount_path : String

/-- _collect_downloads: build the checksum index of the destination, run the
three collection passes in order, and succeed when any evidence file is
present afterwards.  The resulting directory is returned alongside. -/
def collect_downloads (env : CollectEnv) (d0 : Dir) (reported : List ReportedDownload) :
    Bool × Dir :=
  let (idx, d1) := build_checksum_index d0
  let (_, idx1, d2) := copy_reported_downloads env.fs reported idx d1
  let (_, idx2, d3) := download_artifact_files env.fetch env.artifacts idx1 d2
  let (_, _, d4) := copy_from_task_mount env.fs.dest_root env.mount_path env.mount idx2 d3
  (!(d4.filter (fun e => is_evidence_file e.1)).isEmpty, d4)

/-! ## The wait loop of _wait_for_task_completion (skyvern_api_downloader.py) -/

/-- FINAL_TASK_STATUSES from skyvern_api_downloader.py. -/
def FINAL_TASK_STATUSES : List String :=
  ["completed", "success", "terminated", "failed", "error", "timed_out", "canceled"]

/-- FAILURE_STATUSES from skyvern_api_downloader.py. -/
def FAILURE_STATUSES : List String := ["failed", "error", "timed_out"]

/-- Outcome of one GET tasks/id poll inside _wait_for_task_completion: a
parsed 200 response with a status field, a non-200 response, or an
exception. -/
inductive TaskPollResp where
  | ok (status : String)
  | httpErr (code : Nat)
  | exc
deriving DecidableEq

/-- The while-True loop of _wait_for_task_completion, fuel indexed.  The
function has no timeout of its own (its docstring says so explicitly): the
only exit is a response whose status is in FINAL_TASK_STATUSES, returning
whether that status is outside FAILURE_STATUSES together with the status.
Non-200 responses and exceptions sleep and poll again. -/
def wait_loop (polls : Nat → TaskPollResp) : Nat → Nat → Option (Bool × String)
  | _, 0 => none
  | i, fuel + 1 =>
    match polls i with
    | .ok s =>
      if s ∈ FINAL_TASK_STATUSES then some (decide (s ∉ FAILURE_STATUSES), s)
      else wait_loop polls (i + 1) fuel
    | _ => wait_loop polls (i + 1) fuel

/-- Termination of the wait loop on a given response stream: some finite
number of iterations produces a result. -/
def wait_terminates (polls : Nat → TaskPollResp) : Prop :=
  ∃ fuel out, wait_loop polls 0 fuel = some out

/-- A task whose every poll reports a still-running status. -/
def all_running_task : Nat → TaskPollResp := fun _ => .ok "running"

/-! ## The pre-filter (llm_pre_filter.py) -/

/-- Outcome of the model call and JSON parsing inside should_download_case:
any exception along the way, or a parsed object whose two fields may each be
absent. -/
inductive LlmOutcome where
  | raises (msg : String)
  | returns (should_download : Option Bool) (reason : Option String)
deriving DecidableEq

/-- should_download_case from llm_pre_filter.py: a falsy OPENAI_API_KEY
short-circuits to (True, reason); an exception during the evaluation is
caught and also yields (True, reason); a parsed response is read with
defaults of True and a placeholder reason. -/
def should_download_case (openai_key : Option String) (llm : LlmOutcome) : Bool × String :=
  if py_truthy_str openai_key = false then (true, "No OpenAI API key configured")
  else
    match llm with
    | .raises msg => (true, "LLM error, defaulting to download: " ++ msg)
    | .returns sd reason => (sd.getD true, reason.getD "No reason provided")

/-! ## Concrete fixtures for the claim theorems -/

/-- A workflow environment that is never exercised on the paths under
test. -/
def idle_wf_env : WorkflowEnv :=
  ⟨false, none, all_running, false, [], none, false⟩

/-- Google Drive environment in which the folder fetch yields one file whose
Dropbox upload fails. -/
def upload_failing_gdrive_env : GDriveEnv :=
  ⟨false, [("evidence.mp4", false)], false, false⟩

/-- A case pointing at a Google Drive folder link. -/
def gdrive_folder_case : CaseInput :=
  ⟨"Alice", ["https://drive.google.com/drive/folders/FOLD123"], "", "p1"⟩

/-- A case pointing at an ordinary portal link. -/
def portal_case : CaseInput :=
  ⟨"Bob", ["https://portal.example.com/evidence"], "", "p3"⟩

/-- A workflow environment whose start call answers with a non-200 status. -/
def start_failing_wf_env : WorkflowEnv :=
  ⟨false, none, all_running, false, [], none, false⟩

/-- A workflow environment that starts run wr9, observes completed on the
first poll, and finds no download directory. -/
def completed_empty_wf_env : WorkflowEnv :=
  ⟨false, some (some "wr9"), fun _ => .ok "completed", false, [], none, false⟩

/-- Destination directory already holding one evidence file of contents 7. -/
def c5_dest : Dir := [("a.pdf", 7)]

/-- The job reports one downloaded file: the same name and the same contents
as the copy already present, with no checksum field in the record. -/
def c5_reported : List ReportedDownload := [⟨none, some "a.pdf", some "/sky/run1/a.pdf"⟩]

/-- Collection environment for the dedup counterexample: the reported source
file exists with contents 7, there are no artifacts and no mounted task
directory. -/
def c5_env : CollectEnv :=
  ⟨⟨[("/sky/run1/a.pdf", 7)], "/dest/Alice"⟩, [], fun _ => none, none, "/mnt/sky/run1"⟩

/-- Recognizer for the backend-dispatch events of process_case. -/
def is_backend_event : Event → Bool
  | .backendCall _ => true
  | _ => false

end AutoDownloader

namespace AutoDownloader

/-! ## Claim theorems -/

/-- C2.  The stale sweep does leave a case alone when the backend reports its
job running (first conjunct, as the claim states).  But a case whose job the
backend answers with HTTP 404 is also left alone, contrary to the claim: the
404 branch of is_workflow_active returns the tuple (False, message), which is
truthy in the boolean context of the sweep, so the case is treated as active
and neither reset to Ready For Download nor has its run id cleared (second
conjunct shows zero cases cleared and no store writes; the last two conjuncts
exhibit the returned tuple and its truthiness). -/
theorem C2_stale_sweep_skips_not_found_job :
    clear_stale_downloading_statuses (.ok [running_case]) sweep_check = (0, []) ∧
    clear_stale_downloading_statuses (.ok [not_found_case]) sweep_check = (0, []) ∧
    is_workflow_active (some "wr_gone") sweep_check =
      .pair false (some "No files downloaded from Google Drive") ∧
    (is_workflow_active (some "wr_gone") sweep_check).truthy = true := by
  refine ⟨by decide, by decide, by decide, by decide⟩

/-- C1.  A Google Drive folder case whose single downloaded file fails to
upload to Dropbox: download_google_drive returns the tuple
(False, "Failed to upload to Dropbox"), which is truthy, so process_case
takes the success branch and never writes Failed — the case stays in
Downloading, contradicting the claim that every upload-failure outcome is
marked Failed. -/
theorem C1_upload_failure_not_marked_failed :
    process_case ⟨upload_failing_gdrive_env, idle_wf_env⟩ gdrive_folder_case 1 =
      some (.pair false (some "Failed to upload to Dropbox"),
        [Event.backendCall .gdrive, Event.updStatus "p1" "Downloading"]) ∧
    (PyRet.pair false (some "Failed to upload to Dropbox")).truthy = true ∧
    Event.updStatus "p1" "Failed" ∉
      [Event.backendCall Backend.gdrive, Event.updStatus "p1" "Downloading"] := by
  refine ⟨by decide, rfl, by decide⟩

/-- C5.  A destination already holding a.pdf with contents 7 (indexed by the
pre-pass, first conjunct), collected against a job whose reported download is
the same contents under the same name with no checksum field: the copy lands
on the destination file itself, the post-copy hash is found in the index, and
the unlink removes the only copy — the final directory is empty and the
collector reports failure, contradicting exactly-one-copy-per-hash and the
preservation of files validly present before collection. -/
theorem C5_dedup_deletes_sole_copy :
    build_checksum_index c5_dest = ([(7, "a.pdf")], c5_dest) ∧
    collect_downloads c5_env c5_dest c5_reported = (false, []) := by
  refine ⟨by decide, by decide⟩

/-- C9.  An exception during any page query makes count_cases_with_status
return 0, a failed case query makes count_active_downloads return 0, and the
scheduler gate then sees zero active downloads and proceeds to launch new
work. -/
theorem C9_accounting_error_reads_as_zero :
    (∀ (q : StoreQuery) (fuel : Nat) (e : Unit),
      count_cases_loop q none 0 fuel = some (.error e) →
        count_cases_with_status q fuel = some 0) ∧
    (∀ (check : String → WfCheck) (e : Unit),
      count_active_downloads (.error e) check = 0) ∧
    (∀ (check : String → WfCheck) (e : Unit),
      scheduler_launches_new_work (count_active_downloads (.error e) check) = true) := by
  refine ⟨?_, fun check e => rfl, fun check e => rfl⟩
  intro q fuel e h
  unfold count_cases_with_status
  rw [h]

/-- Witness for C9 at a store whose first query already raises. -/
theorem C9_accounting_error_reads_as_zero_witness :
    count_cases_with_status raising_query 1 = some 0 ∧
    count_active_downloads (.error ()) (fun _ => .raises) = 0 :=
  ⟨C9_accounting_error_reads_as_zero.1 raising_query 1 () rfl,
   C9_accounting_error_reads_as_zero.2.1 (fun _ => .raises) ()⟩

/-- Mapping a function over an optional result preserves definedness. -/
theorem option_map_isSome {α β : Type} (f : α → β) (x : Option α) :
    (x.map f).isSome = x.isSome := by
  cases x <;> rfl

/-- Unfolding equation for one iteration of the poll loop. -/
theorem poll_loop_succ (polls : Nat → PollResp) (elapsed retry i fuel : Nat) :
    poll_loop polls elapsed retry i (fuel + 1) =
      if SKYVERN_TIMEOUT < elapsed then some ⟨.timedOut, 1, []⟩
      else
        match polls i with
        | .timeout =>
          if skyvern_max_retries ≤ retry + 1 then
            some ⟨.gaveUp ("Failed to check workflow status after " ++
              toString skyvern_max_retries ++ " timeout attempts"), 0, []⟩
          else
            (poll_loop polls (elapsed + SKYVERN_POLL_INTERVAL * (retry + 1)) (retry + 1)
                (i + 1) fuel).map
              (fun out => ⟨out.exit, out.cancels,
                (PollResp.timeout, SKYVERN_POLL_INTERVAL * (retry + 1)) :: out.steps⟩)
        | .err =>
          (poll_loop polls (elapsed + SKYVERN_POLL_INTERVAL) retry (i + 1) fuel).map
            (fun out => ⟨out.exit, out.cancels,
              (PollResp.err, SKYVERN_POLL_INTERVAL) :: out.steps⟩)
        | .ok s =>
          if s ∈ terminal_workflow_statuses then some ⟨.terminal s, 0, []⟩
          else
            (poll_loop polls (elapsed + SKYVERN_POLL_INTERVAL) 0 (i + 1) fuel).map
              (fun out => ⟨out.exit, out.cancels,
                (PollResp.ok s, SKYVERN_POLL_INTERVAL) :: out.steps⟩) := rfl

/-- Every loop run that a large enough fuel does not cut short returns a
result: each continuing iteration sleeps at least one poll interval, so the
elapsed model time passes the absolute ceiling within the fuel bound. -/
theorem poll_loop_isSome (polls : Nat → PollResp) :
    ∀ fuel elapsed retry i, SKYVERN_TIMEOUT < elapsed + SKYVERN_POLL_INTERVAL * fuel →
      (poll_loop polls elapsed retry i (fuel + 1)).isSome = true := by
  intro fuel
  induction fuel with
  | zero =>
    intro e r i h
    rw [poll_loop_succ]
    rw [if_pos (by simpa [SKYVERN_POLL_INTERVAL] using h)]
    rfl
  | succ f ih =>
    intro e r i h
    rw [poll_loop_succ]
    by_cases hT : SKYVERN_TIMEOUT < e
    · rw [if_pos hT]; rfl
    · rw [if_neg hT]
      split
      · by_cases hb : skyvern_max_retries ≤ r + 1
        · rw [if_pos hb]; rfl
        · rw [if_neg hb, option_map_isSome]
          refine ih (e + SKYVERN_POLL_INTERVAL * (r + 1)) (r + 1) (i + 1) ?_
          simp only [SKYVERN_TIMEOUT, SKYVERN_POLL_INTERVAL] at h ⊢
          have h30 : 30 ≤ 30 * (r + 1) := by omega
          omega
      · rw [option_map_isSome]
        refine ih (e + SKYVERN_POLL_INTERVAL) r (i + 1) ?_
        simp only [SKYVERN_TIMEOUT, SKYVERN_POLL_INTERVAL] at h ⊢
        omega
      · next s heq =>
        by_cases hterm : s ∈ terminal_workflow_statuses
        · rw [if_pos hterm]; rfl
        · rw [if_neg hterm, option_map_isSome]
          refine ih (e + SKYVERN_POLL_INTERVAL) 0 (i + 1) ?_
          simp only [SKYVERN_TIMEOUT, SKYVERN_POLL_INTERVAL] at h ⊢
          omega

/-- On a backend that always reports still running, any run that returns at
all exits through the absolute-ceiling branch, issuing exactly one cancel. -/
theorem poll_loop_all_running_exit :
    ∀ fuel elapsed i, poll_loop all_running elapsed 0 i fuel = none ∨
      ∃ steps, poll_loop all_running elapsed 0 i fuel = some ⟨.timedOut, 1, steps⟩ := by
  intro fuel
  induction fuel with
  | zero => intro e i; exact Or.inl rfl
  | succ f ih =>
    intro e i
    rw [poll_loop_succ]
    by_cases hT : SKYVERN_TIMEOUT < e
    · rw [if_pos hT]; exact Or.inr ⟨[], rfl⟩
    · rw [if_neg hT]
      split
      · next heq => exact absurd heq (by simp [all_running])
      · next heq => exact absurd heq (by simp [all_running])
      · next s heq =>
        have hs : s = "running" := by
          have := heq
          simp [all_running] at this
          exact this.symm
        subst hs
        rw [if_neg (by decide)]
        rcases ih (e + SKYVERN_POLL_INTERVAL) (i + 1) with h | ⟨steps, h⟩
        · rw [h]; exact Or.inl rfl
        · rw [h]
          exact Or.inr ⟨(PollResp.ok "running", SKYVERN_POLL_INTERVAL) :: steps, rfl⟩

/-- The wait loop of _wait_for_task_completion never returns on a stream of
still-running responses: no iteration count produces a result. -/
theorem wait_loop_all_running_none : ∀ fuel i, wait_loop all_running_task i fuel = none := by
  intro fuel
  induction fuel with
  | zero => intro i; rfl
  | succ f ih =>
    intro i
    simp only [wait_loop, all_running_task]
    have hfin : ("running" ∈ FINAL_TASK_STATUSES) = False := by decide
    rw [if_neg (by simp [hfin])]
    exact ih (i + 1)

/-- Every continuing iteration that is not a transient timeout sleeps exactly
one fixed poll interval: backoff never applies to a still-running response
(nor to a non-timeout error). -/
theorem poll_loop_fixed_sleep :
    ∀ fuel polls elapsed retry i out, poll_loop polls elapsed retry i fuel = some out →
      ∀ p ∈ out.steps, p.1 ≠ PollResp.timeout → p.2 = SKYVERN_POLL_INTERVAL := by
  intro fuel
  induction fuel with
  | zero =>
    intro polls e r i out h
    exact absurd h (by simp [poll_loop])
  | succ f ih =>
    intro polls e r i out h
    rw [poll_loop_succ] at h
    by_cases hT : SKYVERN_TIMEOUT < e
    · rw [if_pos hT] at h
      cases h
      intro p hp
      simp at hp
    · rw [if_neg hT] at h
      split at h
      · by_cases hb : skyvern_max_retries ≤ r + 1
        · rw [if_pos hb] at h
          cases h
          intro p hmem
          simp at hmem
        · rw [if_neg hb] at h
          rcases Option.map_eq_some'.mp h with ⟨out', hout', hcons⟩
          subst hcons
          intro p hmem hne
          rcases List.mem_cons.mp hmem with hhead | htail
          · subst hhead; exact absurd rfl hne
          · exact ih polls (e + SKYVERN_POLL_INTERVAL * (r + 1)) (r + 1) (i + 1) out' hout' p htail hne
      · rcases Option.map_eq_some'.mp h with ⟨out', hout', hcons⟩
        subst hcons
        intro p hmem hne
        rcases List.mem_cons.mp hmem with hhead | htail
        · subst hhead; rfl
        · exact ih polls (e + SKYVERN_POLL_INTERVAL) r (i + 1) out' hout' p htail hne
      · next s heq =>
        by_cases hterm : s ∈ terminal_workflow_statuses
        · rw [if_pos hterm] at h
          cases h
          intro p hmem
          simp at hmem
        · rw [if_neg hterm] at h
          rcases Option.map_eq_some'.mp h with ⟨out', hout', hcons⟩
          subst hcons
          intro p hmem hne
          rcases List.mem_cons.mp hmem with hhead | htail
          · subst hhead; rfl
          · exact ih polls (e + SKYVERN_POLL_INTERVAL) 0 (i + 1) out' hout' p htail hne

/-- C4 counterexample.  The claim says no sequence of poll responses makes
either poll loop run forever; but _wait_for_task_completion has no timeout,
so a task whose polls always answer still-running is polled forever. -/
theorem C4_wait_loop_can_run_forever : ¬ wait_terminates all_running_task := by
  rintro ⟨fuel, out, h⟩
  rw [wait_loop_all_running_none fuel 0] at h
  exact Option.noConfusion h

/-- C4 (amended).  The poll loop of download_with_skyvern_workflow does
terminate for every sequence of poll responses (fuel 482 covers the
four-hour ceiling at thirty-second steps), and on a backend that never
reaches a terminal status it exits through the absolute ceiling issuing
exactly one cancel; the wait loop of _wait_for_task_completion, by contrast,
has no timeout and never returns on such a backend. -/
theorem C4_poll_loop_terminates_with_one_cancel :
    (∀ polls : Nat → PollResp, (poll_loop polls 0 0 0 482).isSome = true) ∧
    (∃ steps, poll_loop all_running 0 0 0 482 = some ⟨.timedOut, 1, steps⟩) ∧
    (∀ fuel i, wait_loop all_running_task i fuel = none) := by
  refine ⟨fun polls => ?_, ?_, wait_loop_all_running_none⟩
  · exact poll_loop_isSome polls 481 0 0 0 (by norm_num [SKYVERN_TIMEOUT, SKYVERN_POLL_INTERVAL])
  · rcases poll_loop_all_running_exit 482 0 0 with h | h
    · have hs := poll_loop_isSome all_running 481 0 0 0
        (by norm_num [SKYVERN_TIMEOUT, SKYVERN_POLL_INTERVAL])
      rw [show (481 : Nat) + 1 = 482 from rfl, h] at hs
      exact absurd hs (by simp)
    · exact h

/-- C7 counterexample.  Five consecutive timeout polls reach the retry bound
and the loop returns failure with zero cancel calls (the claim says the job
is canceled there); and a stream of non-timeout poll errors keeps being
retried far past the five-error bound — seven consecutive errors and the
loop is still going. -/
theorem C7_retry_bound_reached_without_cancel :
    (poll_loop all_timeout 0 0 0 10).map (fun o => (o.exit, o.cancels)) =
      some (LoopExit.gaveUp "Failed to check workflow status after 5 timeout attempts", 0) ∧
    poll_loop all_err 0 0 0 7 = none := by
  exact ⟨by decide, by decide⟩

/-- C7 (amended).  Backoff applies only to consecutive transient timeout
errors: every continuing iteration whose response is not a timeout sleeps
exactly the fixed poll interval; consecutive timeouts back off linearly
(sleeps 30, 60, 90, 120) and are bounded at five, after which the attempt
returns failure without canceling the job. -/
theorem C7_backoff_only_on_timeouts (polls : Nat → PollResp) (elapsed retry i fuel : Nat)
    (out : LoopOut) (h : poll_loop polls elapsed retry i fuel = some out) :
    (∀ p ∈ out.steps, p.1 ≠ PollResp.timeout → p.2 = SKYVERN_POLL_INTERVAL) ∧
    poll_loop all_timeout 0 0 0 10 =
      some ⟨.gaveUp "Failed to check workflow status after 5 timeout attempts", 0,
        [(.timeout, 30), (.timeout, 60), (.timeout, 90), (.timeout, 120)]⟩ := by
  exact ⟨poll_loop_fixed_sleep fuel polls elapsed retry i out h, by decide⟩

/-- Witness for C7 at a run with one still-running iteration before the
ceiling: its recorded sleep is the fixed poll interval. -/
theorem C7_backoff_only_on_timeouts_witness :
    (30 : Nat) = SKYVERN_POLL_INTERVAL ∧
    poll_loop all_timeout 0 0 0 10 =
      some ⟨.gaveUp "Failed to check workflow status after 5 timeout attempts", 0,
        [(.timeout, 30), (.timeout, 60), (.timeout, 90), (.timeout, 120)]⟩ :=
  ⟨(C7_backoff_only_on_timeouts all_running 14390 0 0 3
      ⟨.timedOut, 1, [(.ok "running", 30)]⟩ (by decide)).1
      (PollResp.ok "running", 30) (by decide) (by decide),
   (C7_backoff_only_on_timeouts all_running 14390 0 0 3
      ⟨.timedOut, 1, [(.ok "running", 30)]⟩ (by decide)).2⟩

/-- The last element of a list extended by one element. -/
theorem getLast_append_single {α : Type} (l : List α) (a : α) :
    (l ++ [a]).getLast? = some a := by
  rw [List.getLast?_append_cons]
  rfl

/-- Shape of every trace download_with_skyvern_workflow can produce once a
workflow run id was obtained: the finally block makes the trace end with the
clearing update. -/
theorem dwsw_trace_shape (env : WorkflowEnv) (page_id : String) (fuel : Nat)
    (wr : String) (ret : PyRet) (tr : List Event)
    (hs : env.start_raises = false) (hr : env.start_http = some (some wr))
    (h : download_with_skyvern_workflow env page_id fuel = some (ret, tr)) :
    ∃ front, tr = front ++ [Event.updWorkflowRunId page_id none] := by
  simp only [download_with_skyvern_workflow, hs, hr, Bool.false_eq_true, if_false] at h
  split at h
  · simp at h
  · split at h
    · simp only [Option.some.injEq, Prod.mk.injEq] at h
      exact ⟨_, h.2.symm⟩
    · simp only [Option.some.injEq, Prod.mk.injEq] at h
      exact ⟨_, h.2.symm⟩
    · split at h
      · split at h
        · simp only [Option.some.injEq, Prod.mk.injEq] at h
          exact ⟨_, h.2.symm⟩
        · split at h
          · split at h
            · simp only [Option.some.injEq, Prod.mk.injEq] at h
              exact ⟨_, h.2.symm⟩
            · split at h
              · simp only [Option.some.injEq, Prod.mk.injEq] at h
                exact ⟨_, h.2.symm⟩
              · simp only [Option.some.injEq, Prod.mk.injEq] at h
                exact ⟨_, h.2.symm⟩
          · simp only [Option.some.injEq, Prod.mk.injEq] at h
            exact ⟨_, h.2.symm⟩
      · simp only [Option.some.injEq, Prod.mk.injEq] at h
        exact ⟨_, h.2.symm⟩

/-- C6.  On every exit path of download_with_skyvern_workflow that created a
workflow run — success, failure of any kind, or the modeled unexpected
exception — the last record-store call is update_workflow_run_id with None:
the stored job reference never persists past the attempt. -/
theorem C6_workflow_run_id_cleared (env : WorkflowEnv) (page_id : String) (fuel : Nat)
    (wr : String) (ret : PyRet) (tr : List Event)
    (hs : env.start_raises = false) (hr : env.start_http = some (some wr))
    (h : download_with_skyvern_workflow env page_id fuel = some (ret, tr)) :
    tr.getLast? = some (Event.updWorkflowRunId page_id none) := by
  obtain ⟨front, rfl⟩ := dwsw_trace_shape env page_id fuel wr ret tr hs hr h
  exact getLast_append_single front _

/-- Witness for C6 at a run that completes with no download directory. -/
theorem C6_workflow_run_id_cleared_witness :
    ([Event.updWorkflowRunId "p6" (some "wr9"), Event.updStatus "p6" "Downloading",
      Event.updWorkflowRunId "p6" none].getLast? = some (Event.updWorkflowRunId "p6" none)) :=
  C6_workflow_run_id_cleared completed_empty_wf_env "p6" 1 "wr9" (.bool false)
    [Event.updWorkflowRunId "p6" (some "wr9"), Event.updStatus "p6" "Downloading",
      Event.updWorkflowRunId "p6" none] rfl rfl (by decide)

/-- No trace of download_with_skyvern_workflow contains a backend-dispatch
event: those are emitted by process_case alone. -/
theorem dwsw_no_backend_events (env : WorkflowEnv) (page_id : String) (fuel : Nat)
    (ret : PyRet) (tr : List Event)
    (h : download_with_skyvern_workflow env page_id fuel = some (ret, tr)) :
    tr.filter is_backend_event = [] := by
  simp only [download_with_skyvern_workflow] at h
  repeat' split at h
  all_goals first
    | exact Option.noConfusion h
    | (injection h with h2; injection h2 with hr ht; subst ht;
       simp [is_backend_event, List.filter_append, List.filter])

/-- No trace of download_google_drive contains a backend-dispatch event. -/
theorem dgd_no_backend_events (env : GDriveEnv) (url suspect_name page_id : String) :
    (download_google_drive env url suspect_name page_id).2.filter is_backend_event = [] := by
  simp only [download_google_drive]
  repeat' split
  all_goals simp [is_backend_event, List.filter_append, List.filter]

/-- C3 counterexample.  A portal case whose only applicable backend (the
Skyvern workflow) fails to start: process_case marks the case Failed at once,
with exactly one backend attempted — there is no later backend to fall back
to, so the final status is not the claimed Acquired. -/
theorem C3_no_fallback_after_start_failure :
    process_case ⟨upload_failing_gdrive_env, start_failing_wf_env⟩ portal_case 1 =
      some (.bool false, [Event.backendCall .skyvern, Event.updStatus "p3" "Failed"]) := by
  decide

/-- C3 (amended).  process_case attempts exactly one backend, chosen by the
URL type (Google Drive URLs use the gdown routine, every other URL the
Skyvern workflow routine); when the chosen routine returns a falsy value the
case is marked Failed immediately, with no other backend attempted. -/
theorem C3_single_backend_dispatch (env : ProcessEnv) (c : CaseInput) (fuel : Nat)
    (ret : PyRet) (tr : List Event) (h : process_case env c fuel = some (ret, tr)) :
    tr.filter is_backend_event =
      [Event.backendCall (if is_google_drive_url (str_at c.download_links 0) then
        Backend.gdrive else Backend.skyvern)] ∧
    (ret.truthy = false → tr.getLast? = some (Event.updStatus c.page_id "Failed")) := by
  simp only [process_case] at h
  split at h
  · next hg =>
    rcases heq : download_google_drive env.gdrive (str_at c.download_links 0)
        c.suspect_name c.page_id with ⟨r0, t0⟩
    rw [heq] at h
    dsimp only at h
    injection h with h2
    injection h2 with hr ht
    subst hr
    subst ht
    have ht0 : t0.filter is_backend_event = [] := by
      have h3 := dgd_no_backend_events env.gdrive (str_at c.download_links 0)
        c.suspect_name c.page_id
      rw [heq] at h3
      exact h3
    constructor
    · unfold mark_case_outcome
      cases htr : r0.truthy <;>
        simp [is_backend_event, List.filter_append, List.filter, hg, ht0]
    · intro htr
      unfold mark_case_outcome
      rw [htr]
      simp only [Bool.false_eq_true, if_false]
      exact getLast_append_single _ _
  · next hg =>
    split at h
    · exact Option.noConfusion h
    · next r0 t0 heq =>
      injection h with h2
      injection h2 with hr ht
      subst hr
      subst ht
      have ht0 : t0.filter is_backend_event = [] :=
        dwsw_no_backend_events env.wf c.page_id fuel r0 t0 heq
      constructor
      · unfold mark_case_outcome
        cases htr : r0.truthy <;>
          simp [is_backend_event, List.filter_append, List.filter, hg, ht0]
      · intro htr
        unfold mark_case_outcome
        rw [htr]
        simp only [Bool.false_eq_true, if_false]
        exact getLast_append_single _ _

/-- Witness for C3 at the start-failure run. -/
theorem C3_single_backend_dispatch_witness :
    ([Event.backendCall Backend.skyvern, Event.updStatus "p3" "Failed"].filter is_backend_event =
      [Event.backendCall (if is_google_drive_url (str_at portal_case.download_links 0) then
        Backend.gdrive else Backend.skyvern)]) ∧
    ([Event.backendCall Backend.skyvern, Event.updStatus "p3" "Failed"].getLast? =
      some (Event.updStatus portal_case.page_id "Failed")) :=
  ⟨(C3_single_backend_dispatch ⟨upload_failing_gdrive_env, start_failing_wf_env⟩ portal_case 1
      (.bool false) [Event.backendCall Backend.skyvern, Event.updStatus "p3" "Failed"]
      (by decide)).1,
   (C3_single_backend_dispatch ⟨upload_failing_gdrive_env, start_failing_wf_env⟩ portal_case 1
      (.bool false) [Event.backendCall Backend.skyvern, Event.updStatus "p3" "Failed"]
      (by decide)).2 rfl⟩

/-- A nonempty suffix of the batch list starts with some batch. -/
theorem drop_cons_of_lt (batches : List (List String)) (k : Nat) (hk : k < batches.length) :
    ∃ b rest, batches.drop k = b :: rest := by
  cases hd : batches.drop k with
  | nil =>
    rw [List.drop_eq_nil_iff] at hd
    omega
  | cons b rest => exact ⟨b, rest, rfl⟩

/-- The chain store answers a query at batch k with batch k, flagging more
pages exactly while some remain. -/
theorem chain_query_step (batches : List (List String)) (cursor : Option Nat) (k : Nat)
    (hc : cursor.getD 0 = k) (b : List String) (rest : List (List String))
    (hdrop : batches.drop k = b :: rest) :
    chain_query batches cursor = .ok ⟨b, !rest.isEmpty, some (k + 1)⟩ := by
  simp only [chain_query, hc, hdrop]

/-- Unfolding equation for one iteration of the pagination loop. -/
theorem count_cases_loop_succ (q : StoreQuery) (cursor : Option Nat) (total fuel : Nat) :
    count_cases_loop q cursor total (fuel + 1) =
      match q cursor with
      | .error e => some (.error e)
      | .ok page =>
        if page.has_more then
          count_cases_loop q page.next_cursor (total + page.results.length) fuel
        else some (.ok (total + page.results.length)) := rfl

/-- From batch k on, the pagination loop of count_cases_with_status follows
the cursors and accumulates the length of every remaining batch. -/
theorem chain_count_loop (batches : List (List String)) :
    ∀ fuel k cursor total, cursor.getD 0 = k → k < batches.length →
      batches.length - k ≤ fuel + 1 →
      count_cases_loop (chain_query batches) cursor total (fuel + 1) =
        some (.ok (total + ((batches.drop k).map List.length).sum)) := by
  intro fuel
  induction fuel with
  | zero =>
    intro k cursor total hc hk hle
    obtain ⟨b, rest, hdrop⟩ := drop_cons_of_lt batches k hk
    have hlen : batches.length - k = rest.length + 1 := by
      have h0 := congrArg List.length hdrop
      simpa [List.length_drop] using h0
    have hrest : rest = [] := by
      cases rest with
      | nil => rfl
      | cons x xs => simp at hlen; omega
    subst hrest
    rw [count_cases_loop_succ, chain_query_step batches cursor k hc b [] hdrop, hdrop]
    simp
  | succ f ih =>
    intro k cursor total hc hk hle
    obtain ⟨b, rest, hdrop⟩ := drop_cons_of_lt batches k hk
    rw [count_cases_loop_succ, chain_query_step batches cursor k hc b rest hdrop, hdrop]
    cases rest with
    | nil => simp
    | cons r0 rs =>
      have hlen : batches.length - k = rs.length + 2 := by
        have h0 := congrArg List.length hdrop
        simpa [List.length_drop] using h0
      have hdrop1 : batches.drop (k + 1) = r0 :: rs := by
        have hdd : batches.drop (k + 1) = (batches.drop k).drop 1 := by
          rw [List.drop_drop]
        rw [hdd, hdrop]
        rfl
      have hk1 : k + 1 < batches.length := by omega
      have hle1 : batches.length - (k + 1) ≤ f + 1 := by omega
      have hrec := ih (k + 1) (some (k + 1)) (total + b.length) rfl hk1 hle1
      simp only [List.isEmpty_cons, Bool.not_false, if_true]
      rw [hrec, hdrop1]
      simp [Nat.add_assoc]

/-- C8.  Over every well-formed multi-page store, count_cases_with_status
follows next_cursor while has_more is set and returns the sum of the result
counts of all pages — no single-page assumption. -/
theorem C8_count_pages_through_all_batches (b : List String) (bs : List (List String)) :
    count_cases_with_status (chain_query (b :: bs)) (bs.length + 1) =
      some (((b :: bs).map List.length).sum) := by
  unfold count_cases_with_status
  rw [chain_count_loop (b :: bs) bs.length 0 none 0 rfl (by simp) (by simp)]
  simp

/-- C10.  The pre-filter fails open: a missing key, a blank key, and an
exception during the evaluation all yield a should-download answer of true
(with a reason string). -/
theorem C10_pre_filter_fails_open :
    (∀ llm : LlmOutcome, (should_download_case none llm).1 = true) ∧
    (∀ llm : LlmOutcome, (should_download_case (some "") llm).1 = true) ∧
    (∀ (key : Option String) (msg : String),
      (should_download_case key (.raises msg)).1 = true) := by
  refine ⟨fun llm => rfl, fun llm => rfl, fun key msg => ?_⟩
  unfold should_download_case
  split
  · rfl
  · rfl

end AutoDownloader
